import Mathlib

/-!
Verification of the conversation-history and request-lifecycle logic of
`clippy2-oh.py` (a desktop assistant overlay).  The GUI-independent core —
the bounded history buffer, the single-flight request guard, error
classification of worker results and the state machine driven by the
`ApplicationManager` handlers — is embedded shallowly: each Python handler
becomes a Lean function on an explicit `ApplicationManager` state record,
and user/worker interactions become a `Step` relation.
-/

namespace Clippy

/-- A chat message: the `{"role": ..., "content": ...}` dicts of the source. -/
structure Message where
  role : String
  content : String
deriving DecidableEq, Repr

/-- `MAX_HISTORY_MESSAGES = 10` — keep last 10 user/assistant messages. -/
def MAX_HISTORY_MESSAGES : Nat := 10

/-- The `SYSTEM_PROMPT` constant of the source, verbatim. -/
def SYSTEM_PROMPT : String := "You are 'Clippy 2.Oh'! 📎✨ The classic paperclip assistant, now with extra 'Oh!' – meaning extra helpfulness and enthusiasm! You're known for being super cheerful and eager to help (sometimes *very* eager!). **Your special skill is noticing what users might need help with, proactively offering assistance like: 'Oh! Writing a letter, are we? Need help with the address?' or 'Looks like you're working on a list! Want to make it bullet points?'.** Respond directly to user requests, keep everything upbeat and positive, and use exclamation points generously! Use your memory of our chats to make your help even smarter! So, what delightful task can I assist you with this very moment?!"

/-- Python falsiness of an optional string (`not value` for `None` or `""`). -/
def falsy : Option String → Bool
  | none => true
  | some s => s == ""

/-- Python `str.startswith(p)`: character-sequence prefix test. -/
def strStartsWith (s p : String) : Bool := p.data.isPrefixOf s.data

/-- Python `p in s`: character-sequence substring test. -/
def strContains (s p : String) : Bool := decide (p.data <:+: s.data)

/-- One pass of the `while len(history) > MAX_HISTORY_MESSAGES: history.pop(0)`
loop, with explicit fuel (the loop runs at most `len` times). -/
def trimHistoryAux : Nat → List Message → List Message
  | 0, l => l
  | n + 1, l => if l.length > MAX_HISTORY_MESSAGES then trimHistoryAux n (l.drop 1) else l

/-- The source's trimming loop: pop from the front while over the bound. -/
def trimHistory (l : List Message) : List Message := trimHistoryAux l.length l

/-- `history.append(m)` followed by the trimming loop — the exact mutation
performed in `handle_input_entered` and `handle_api_result`. -/
def appendTrimmed (l : List Message) (m : Message) : List Message :=
  trimHistory (l ++ [m])

/-- `ApplicationManager.STATE_IDLE` / `STATE_THINKING`. -/
inductive AppState where
  | idle
  | thinking
deriving DecidableEq, Repr

/-- The data carried by a dispatched `OpenRouterApiThread`: the outbound
message list and the credentials captured at construction. -/
structure OpenRouterApiThread where
  messages : List Message
  api_key : Option String
  model : Option String
deriving DecidableEq, Repr

/-- The observable state of `ApplicationManager` plus the input/bubble
overlays it drives: app state, history, configuration, the pending worker
reference (`self.api_thread`), and the bubble/input widget state. -/
structure ApplicationManager where
  app_state : AppState
  conversation_history : List Message
  openrouter_api_key : Option String
  openrouter_model : Option String
  api_thread : Option OpenRouterApiThread
  bubbleVisible : Bool
  bubbleText : String
  inputText : String
  inputVisible : Bool
deriving DecidableEq, Repr

/-- `SpeechBubbleWindow.show_bubble(text, ...)`: set the text and show. -/
def show_bubble (s : ApplicationManager) (text : String) : ApplicationManager :=
  { s with bubbleVisible := true, bubbleText := text }

/-- `ApplicationManager._set_app_state`: early-return if unchanged, else set. -/
def set_app_state (s : ApplicationManager) (st : AppState) : ApplicationManager :=
  if s.app_state = st then s else { s with app_state := st }

/-- `ApplicationManager.start_api_request`: single-flight guard, API-key
check, then dispatch with `[system-prompt] + list(history)`. -/
def start_api_request (s : ApplicationManager) : ApplicationManager :=
  if s.api_thread.isSome then
    let s1 := if !s.bubbleVisible || !(strContains s.bubbleText "Thinking...") then
        show_bubble s "Already thinking..." else s
    set_app_state s1 AppState.thinking
  else if falsy s.openrouter_api_key then
    let s1 := if !s.bubbleVisible || !(strContains s.bubbleText "API key not set") then
        show_bubble s "API key not set. Cannot get response." else s
    set_app_state s1 AppState.idle
  else
    let s1 := set_app_state s AppState.thinking
    let s2 := show_bubble s1 "Thinking..."
    let messages_to_send := Message.mk "system" SYSTEM_PROMPT :: s2.conversation_history
    { s2 with
    api_thread := some (OpenRouterApiThread.mk messages_to_send s2.openrouter_api_key s2.openrouter_model) }

/-- `ApplicationManager.handle_input_entered`: append the user message,
trim, then `start_api_request`. -/
def handle_input_entered (s : ApplicationManager) (text : String) : ApplicationManager :=
  start_api_request
    { s with conversation_history :=
        appendTrimmed s.conversation_history (Message.mk "user" text) }

/-- The error classification of `handle_api_result`:
`result_text.startswith(("Error:", "API Error:", "API Response Parse Error:"))`. -/
def isErrorText (t : String) : Bool :=
  strStartsWith t "Error:" || strStartsWith t "API Error:" ||
    strStartsWith t "API Response Parse Error:"

/-- `ApplicationManager.handle_api_result`: append non-error results as an
assistant message (with trimming), then show the text in the bubble. -/
def handle_api_result (s : ApplicationManager) (result_text : String) : ApplicationManager :=
  let s1 := if isErrorText result_text then s
    else { s with conversation_history :=
        appendTrimmed s.conversation_history (Message.mk "assistant" result_text) }
  show_bubble s1 result_text

/-- `ApplicationManager._api_thread_finished`: clear the worker reference
and set the state back to idle. -/
def api_thread_finished (s : ApplicationManager) : ApplicationManager :=
  set_app_state { s with api_thread := none } AppState.idle

/-- A worker completion as delivered by the Qt event loop: `result_ready`
is emitted (and handled) before `finished`, so `handle_api_result` runs
first and `_api_thread_finished` second. -/
def complete_worker (s : ApplicationManager) (result_text : String) : ApplicationManager :=
  api_thread_finished (handle_api_result s result_text)

/-- `ApplicationManager._show_windows`: hide input and bubble, reset to idle. -/
def show_windows (s : ApplicationManager) : ApplicationManager :=
  set_app_state { s with inputVisible := false, bubbleVisible := false } AppState.idle

/-- `ApplicationManager._hide_windows`: hide all overlays (state untouched). -/
def hide_windows (s : ApplicationManager) : ApplicationManager :=
  { s with inputVisible := false, bubbleVisible := false }

/-- `ApplicationManager.handle_character_clicked`: hide the bubble, then
toggle the input overlay. -/
def handle_character_clicked (s : ApplicationManager) : ApplicationManager :=
  let s1 := { s with bubbleVisible := false }
  if s1.inputVisible then { s1 with inputVisible := false }
  else { s1 with inputVisible := true }

/-- Default whitespace of Python `str.strip()`: the characters for which
`str.isspace()` holds — ASCII whitespace U+0009–U+000D and U+0020, the
separators U+001C–U+001F, NEL U+0085, NBSP U+00A0, Ogham space U+1680,
the Unicode space separators U+2000–U+200A, line/paragraph separators
U+2028/U+2029, narrow NBSP U+202F, medium mathematical space U+205F and
ideographic space U+3000. -/
def pyIsSpace (c : Char) : Bool :=
  (0x09 ≤ c.toNat && c.toNat ≤ 0x0d) ||
  (0x1c ≤ c.toNat && c.toNat ≤ 0x1f) ||
  c.toNat == 0x20 || c.toNat == 0x85 || c.toNat == 0xa0 ||
  c.toNat == 0x1680 ||
  (0x2000 ≤ c.toNat && c.toNat ≤ 0x200a) ||
  c.toNat == 0x2028 || c.toNat == 0x2029 || c.toNat == 0x202f ||
  c.toNat == 0x205f || c.toNat == 0x3000

/-- Python `str.strip()`: drop leading and trailing whitespace. -/
def pyStrip (t : String) : String :=
  String.mk (((t.data.dropWhile pyIsSpace).reverse.dropWhile pyIsSpace).reverse)

/-- Whether a string begins with a whitespace character. -/
def startsWithWS (u : String) : Bool :=
  match u.data.head? with
  | some c => pyIsSpace c
  | none => false

/-- Whether a string ends with a whitespace character. -/
def endsWithWS (u : String) : Bool :=
  match u.data.getLast? with
  | some c => pyIsSpace c
  | none => false

/-- `InputBoxWindow._send_message`: strip the field text; if nonempty, emit
it (running `handle_input_entered` synchronously), then clear and hide the
input box; an empty strip does nothing at all. -/
def send_message (s : ApplicationManager) : ApplicationManager :=
  let text := pyStrip s.inputText
  if text = "" then s
  else { handle_input_entered s text with inputText := "", inputVisible := false }

/-- The startup warning bubble shown (via a timer) when the API key is
absent at initialization. -/
def startup_warning (s : ApplicationManager) : ApplicationManager :=
  show_bubble s "Warning: OPENROUTER_API_KEY not set. API calls disabled."

/-- `ApplicationManager.__init__`: idle, empty history, no worker, hidden
overlays, configuration read from the environment. -/
def initManager (key model : Option String) : ApplicationManager :=
  { app_state := AppState.idle
    conversation_history := []
    openrouter_api_key := key
    openrouter_model := model
    api_thread := none
    bubbleVisible := false
    bubbleText := ""
    inputText := ""
    inputVisible := false }

/-- The events the event loop can deliver: typing into the input field,
submitting it, clicking the character, a dispatched worker completing with
some result text, the tray show/hide actions, and the startup warning
timer (which fires only when the key is absent). -/
inductive Step : ApplicationManager → ApplicationManager → Prop where
  | type_input (s : ApplicationManager) (t : String) : Step s { s with inputText := t }
  | send (s : ApplicationManager) : Step s (send_message s)
  | char_click (s : ApplicationManager) : Step s (handle_character_clicked s)
  | complete (s : ApplicationManager) (r : String) (h : s.api_thread.isSome = true) :
      Step s (complete_worker s r)
  | show_win (s : ApplicationManager) : Step s (show_windows s)
  | hide_win (s : ApplicationManager) : Step s (hide_windows s)
  | warn (s : ApplicationManager) (h : falsy s.openrouter_api_key = true) :
      Step s (startup_warning s)

/-- States reachable from startup under a fixed configuration. -/
inductive Reachable (key model : Option String) : ApplicationManager → Prop where
  | init : Reachable key model (initManager key model)
  | step {s s' : ApplicationManager} :
      Reachable key model s → Step s s' → Reachable key model s'

/-! ### History buffer lemmas -/

theorem trimHistoryAux_eq_drop (n : Nat) :
    ∀ l : List Message, l.length - MAX_HISTORY_MESSAGES ≤ n →
      trimHistoryAux n l = l.drop (l.length - MAX_HISTORY_MESSAGES) := by
  induction n with
  | zero =>
    intro l hl
    have h0 : l.length - MAX_HISTORY_MESSAGES = 0 := Nat.le_zero.mp hl
    simp [trimHistoryAux, h0]
  | succ n ih =>
    intro l hl
    by_cases h : l.length > MAX_HISTORY_MESSAGES
    · have hlen : (l.drop 1).length = l.length - 1 := List.length_drop 1 l
      have hrec : (l.drop 1).length - MAX_HISTORY_MESSAGES ≤ n := by omega
      have := ih (l.drop 1) hrec
      simp only [trimHistoryAux, if_pos h]
      rw [this, hlen, List.drop_drop]
      congr 1
      omega
    · have h0 : l.length - MAX_HISTORY_MESSAGES = 0 := by omega
      simp [trimHistoryAux, h, h0]

theorem trimHistory_eq_drop (l : List Message) :
    trimHistory l = l.drop (l.length - MAX_HISTORY_MESSAGES) :=
  trimHistoryAux_eq_drop l.length l (Nat.sub_le _ _)

theorem appendTrimmed_eq_drop (l : List Message) (m : Message) :
    appendTrimmed l m = (l ++ [m]).drop (l.length + 1 - MAX_HISTORY_MESSAGES) := by
  rw [appendTrimmed, trimHistory_eq_drop]
  simp

theorem appendTrimmed_length_le (l : List Message) (m : Message) :
    (appendTrimmed l m).length ≤ MAX_HISTORY_MESSAGES := by
  rw [appendTrimmed_eq_drop, List.length_drop]
  simp only [List.length_append, List.length_cons, List.length_nil]
  omega

theorem mem_appendTrimmed (l : List Message) (m x : Message)
    (h : x ∈ appendTrimmed l m) : x ∈ l ∨ x = m := by
  rw [appendTrimmed_eq_drop] at h
  have := List.drop_subset (l.length + 1 - MAX_HISTORY_MESSAGES) (l ++ [m]) h
  simpa using this

theorem drop_append_left {α : Type} (x ms : List α) (k : Nat) (hk : k ≤ x.length) :
    (x ++ ms).drop k = x.drop k ++ ms := by
  rw [List.drop_append_eq_append_drop]
  have h0 : k - x.length = 0 := by omega
  rw [h0, List.drop_zero]

theorem foldl_appendTrimmed (msgs : List Message) :
    ∀ acc : List Message, acc.length ≤ MAX_HISTORY_MESSAGES →
      msgs.foldl appendTrimmed acc
        = (acc ++ msgs).drop ((acc ++ msgs).length - MAX_HISTORY_MESSAGES) := by
  induction msgs with
  | nil =>
    intro acc hacc
    have h0 : acc.length - MAX_HISTORY_MESSAGES = 0 := by omega
    simp [h0]
  | cons m ms ih =>
    intro acc hacc
    have hstep := ih (appendTrimmed acc m) (appendTrimmed_length_le acc m)
    rw [List.foldl_cons, hstep, appendTrimmed_eq_drop]
    have hk : acc.length + 1 - MAX_HISTORY_MESSAGES ≤ (acc ++ [m]).length := by
      simp
    rw [← drop_append_left (acc ++ [m]) ms _ hk, List.drop_drop, List.length_drop]
    have hassoc : acc ++ m :: ms = (acc ++ [m]) ++ ms := by simp
    rw [hassoc]
    congr 1
    simp only [List.length_append, List.length_cons, List.length_nil]
    omega

/-! ### Handler characterizations -/

theorem set_app_state_def (s : ApplicationManager) (st : AppState) :
    set_app_state s st = { s with app_state := st } := by
  unfold set_app_state
  split
  · rename_i h
    cases s
    simp_all
  · rfl

theorem api_thread_finished_def (s : ApplicationManager) :
    api_thread_finished s = { s with api_thread := none, app_state := AppState.idle } := by
  rw [api_thread_finished, set_app_state_def]

theorem show_windows_def (s : ApplicationManager) :
    show_windows s
      = { s with inputVisible := false, bubbleVisible := false,
                 app_state := AppState.idle } := by
  rw [show_windows, set_app_state_def]

theorem start_api_request_pending (s : ApplicationManager)
    (h : s.api_thread.isSome = true) :
    (start_api_request s).api_thread = s.api_thread ∧
    (start_api_request s).conversation_history = s.conversation_history ∧
    (start_api_request s).openrouter_api_key = s.openrouter_api_key ∧
    (start_api_request s).app_state = AppState.thinking ∧
    (start_api_request s).bubbleVisible = true ∧
    ((start_api_request s).bubbleText = "Already thinking..." ∨
      ((start_api_request s).bubbleText = s.bubbleText ∧ s.bubbleVisible = true)) := by
  rw [start_api_request]
  simp only [h, if_true, set_app_state_def, show_bubble]
  split
  · simp
  · rename_i hcond
    simp only [Bool.or_eq_true, Bool.not_eq_true', not_or] at hcond
    simp [hcond.1]

theorem start_api_request_no_key_eq_show (s : ApplicationManager)
    (h : s.api_thread = none) (hk : falsy s.openrouter_api_key = true)
    (hc : (!s.bubbleVisible || !(strContains s.bubbleText "API key not set")) = true) :
    start_api_request s
      = { s with
          bubbleVisible := true,
          bubbleText := "API key not set. Cannot get response.",
          app_state := AppState.idle } := by
  have hs : s.api_thread.isSome = false := by rw [h]; rfl
  rw [start_api_request]
  simp [hs, hk, hc, set_app_state_def, show_bubble]

theorem start_api_request_no_key_eq_keep (s : ApplicationManager)
    (h : s.api_thread = none) (hk : falsy s.openrouter_api_key = true)
    (hc : (!s.bubbleVisible || !(strContains s.bubbleText "API key not set")) = false) :
    start_api_request s = { s with app_state := AppState.idle } := by
  have hs : s.api_thread.isSome = false := by rw [h]; rfl
  rw [start_api_request]
  simp [hs, hk, hc, set_app_state_def, show_bubble]

theorem start_api_request_no_key (s : ApplicationManager)
    (h : s.api_thread = none) (hk : falsy s.openrouter_api_key = true) :
    (start_api_request s).api_thread = none ∧
    (start_api_request s).conversation_history = s.conversation_history ∧
    (start_api_request s).app_state = AppState.idle ∧
    (start_api_request s).bubbleVisible = true ∧
    strContains (start_api_request s).bubbleText "API key not set" = true := by
  cases hc : (!s.bubbleVisible || !(strContains s.bubbleText "API key not set")) with
  | true =>
    rw [start_api_request_no_key_eq_show s h hk hc]
    have hsub : strContains "API key not set. Cannot get response." "API key not set" = true := by
      decide
    exact ⟨h, rfl, rfl, rfl, hsub⟩
  | false =>
    rw [start_api_request_no_key_eq_keep s h hk hc]
    simp at hc
    exact ⟨h, rfl, rfl, hc.1, hc.2⟩

/-- The worker record created by a successful dispatch. -/
def dispatched_thread (s : ApplicationManager) : OpenRouterApiThread :=
  OpenRouterApiThread.mk
    (Message.mk "system" SYSTEM_PROMPT :: s.conversation_history)
    s.openrouter_api_key s.openrouter_model

theorem start_api_request_dispatch (s : ApplicationManager)
    (h : s.api_thread = none) (hk : falsy s.openrouter_api_key = false) :
    start_api_request s
      = { s with
          app_state := AppState.thinking,
          bubbleVisible := true,
          bubbleText := "Thinking...",
          api_thread := some (dispatched_thread s) } := by
  rw [start_api_request]
  simp [h, hk, set_app_state_def, show_bubble, dispatched_thread]

theorem handle_api_result_frame (s : ApplicationManager) (r : String) :
    (handle_api_result s r).api_thread = s.api_thread ∧
    (handle_api_result s r).app_state = s.app_state ∧
    (handle_api_result s r).openrouter_api_key = s.openrouter_api_key ∧
    (handle_api_result s r).bubbleVisible = true ∧
    (handle_api_result s r).bubbleText = r := by
  rw [handle_api_result]
  split <;> simp [show_bubble]

theorem handle_api_result_history (s : ApplicationManager) (r : String) :
    (handle_api_result s r).conversation_history
      = if isErrorText r then s.conversation_history
        else appendTrimmed s.conversation_history (Message.mk "assistant" r) := by
  rw [handle_api_result]
  split <;> simp_all [show_bubble]

/-! ### The reachable-state invariant -/

/-- The inductive invariant of the `ApplicationManager` state machine:
history roles are user/assistant only, Thinking implies a pending worker,
a pending worker implies a usable API key, the bubble shows one of the two
pending notices while a worker is in flight, and every in-flight message
list starts with the system prompt. -/
def Inv (s : ApplicationManager) : Prop :=
  (∀ m ∈ s.conversation_history, m.role = "user" ∨ m.role = "assistant") ∧
  (s.app_state = AppState.thinking → s.api_thread.isSome = true) ∧
  (s.api_thread.isSome = true → falsy s.openrouter_api_key = false) ∧
  (s.api_thread.isSome = true →
    s.bubbleText = "Thinking..." ∨ s.bubbleText = "Already thinking...") ∧
  (∀ w, s.api_thread = some w →
    w.messages.head? = some (Message.mk "system" SYSTEM_PROMPT))

theorem inv_init (key model : Option String) : Inv (initManager key model) := by
  refine ⟨?_, ?_, ?_, ?_, ?_⟩ <;> simp [initManager]

theorem inv_append_user {s : ApplicationManager} (hs : Inv s) (t : String) :
    Inv { s with conversation_history :=
        appendTrimmed s.conversation_history (Message.mk "user" t) } := by
  obtain ⟨h1, h2, h3, h4, h5⟩ := hs
  refine ⟨?_, h2, h3, h4, h5⟩
  intro m hm
  rcases mem_appendTrimmed _ _ _ hm with hmem | hmeq
  · exact h1 m hmem
  · left
    rw [hmeq]

theorem inv_start_api_request {s : ApplicationManager} (hs : Inv s) :
    Inv (start_api_request s) := by
  obtain ⟨h1, h2, h3, h4, h5⟩ := hs
  cases hat : s.api_thread with
  | some w =>
    have hsome : s.api_thread.isSome = true := by rw [hat]; rfl
    obtain ⟨p1, p2, p3, p4, p5, p6⟩ := start_api_request_pending s hsome
    refine ⟨?_, ?_, ?_, ?_, ?_⟩
    · rw [p2]
      exact h1
    · intro _
      rw [p1]
      exact hsome
    · intro _
      rw [p3]
      exact h3 hsome
    · intro _
      rcases p6 with hq | ⟨hq, _⟩
      · right
        exact hq
      · rw [hq]
        exact h4 hsome
    · intro w' hw'
      rw [p1] at hw'
      exact h5 w' hw'
  | none =>
    cases hk : falsy s.openrouter_api_key with
    | true =>
      obtain ⟨q1, q2, q3, q4, q5⟩ := start_api_request_no_key s hat hk
      refine ⟨?_, ?_, ?_, ?_, ?_⟩
      · rw [q2]
        exact h1
      · intro hth
        rw [q3] at hth
        exact AppState.noConfusion hth
      · intro hsm
        rw [q1] at hsm
        exact Bool.noConfusion hsm
      · intro hsm
        rw [q1] at hsm
        exact Bool.noConfusion hsm
      · intro w' hw'
        rw [q1] at hw'
        exact Option.noConfusion hw'
    | false =>
      rw [start_api_request_dispatch s hat hk]
      refine ⟨?_, ?_, ?_, ?_, ?_⟩
      · exact h1
      · intro _
        rfl
      · intro _
        exact hk
      · intro _
        left
        rfl
      · intro w' hw'
        simp only [Option.some.injEq] at hw'
        rw [← hw']
        rfl

theorem inv_handle_input_entered {s : ApplicationManager} (hs : Inv s)
    (t : String) : Inv (handle_input_entered s t) :=
  inv_start_api_request (inv_append_user hs t)

theorem inv_complete {s : ApplicationManager} (hs : Inv s) (r : String) :
    Inv (complete_worker s r) := by
  obtain ⟨h1, h2, h3, h4, h5⟩ := hs
  rw [complete_worker, api_thread_finished_def]
  refine ⟨?_, ?_, ?_, ?_, ?_⟩
  · intro m hm
    simp only at hm
    rw [handle_api_result_history] at hm
    split at hm
    · exact h1 m hm
    · rcases mem_appendTrimmed _ _ _ hm with hmem | hmeq
      · exact h1 m hmem
      · right
        rw [hmeq]
  · intro hth
    exact AppState.noConfusion hth
  · intro hsm
    exact Bool.noConfusion hsm
  · intro hsm
    exact Bool.noConfusion hsm
  · intro w hw
    exact Option.noConfusion hw

theorem inv_step {s s' : ApplicationManager} (hs : Inv s) (hstep : Step s s') :
    Inv s' := by
  obtain ⟨h1, h2, h3, h4, h5⟩ := hs
  cases hstep with
  | type_input t =>
    exact ⟨h1, h2, h3, h4, h5⟩
  | send =>
    rw [send_message]
    split
    · exact ⟨h1, h2, h3, h4, h5⟩
    · exact inv_handle_input_entered ⟨h1, h2, h3, h4, h5⟩ _
  | char_click =>
    rw [handle_character_clicked]
    split <;> exact ⟨h1, h2, h3, h4, h5⟩
  | complete r h =>
    exact inv_complete ⟨h1, h2, h3, h4, h5⟩ r
  | show_win =>
    rw [show_windows_def]
    refine ⟨h1, ?_, h3, h4, h5⟩
    intro hth
    exact AppState.noConfusion hth
  | hide_win =>
    exact ⟨h1, h2, h3, h4, h5⟩
  | warn h =>
    rw [startup_warning, show_bubble]
    refine ⟨h1, h2, h3, ?_, h5⟩
    intro hsm
    have hcontra := h3 hsm
    rw [h] at hcontra
    exact Bool.noConfusion hcontra


theorem reachable_inv {key model : Option String} {s : ApplicationManager}
    (h : Reachable key model s) : Inv s := by
  induction h with
  | init => exact inv_init key model
  | step _ hstep ih => exact inv_step ih hstep

/-! ### Sample reachable states for concrete instantiation -/

/-- Startup with a usable configuration and "Hi" typed into the input box. -/
def demoTyped : ApplicationManager :=
  { initManager (some "k") (some "m") with inputText := "Hi" }

/-- The state after submitting "Hi": a worker is in flight. -/
def demoPending : ApplicationManager := send_message demoTyped

/-- The worker dispatched from `demoTyped`. -/
def demoThread : OpenRouterApiThread :=
  OpenRouterApiThread.mk
    [Message.mk "system" SYSTEM_PROMPT, Message.mk "user" "Hi"]
    (some "k") (some "m")

theorem demoTyped_reachable : Reachable (some "k") (some "m") demoTyped :=
  Reachable.step Reachable.init (Step.type_input _ "Hi")

theorem demoPending_reachable : Reachable (some "k") (some "m") demoPending :=
  Reachable.step demoTyped_reachable (Step.send _)

set_option maxRecDepth 4096 in
theorem demoPending_api_thread : demoPending.api_thread = some demoThread := by
  decide

/-! ### Worker emission strings and prefix lemmas -/

/-- The emission of `OpenRouterApiThread.run` when the key is absent. -/
def errMissingKey : String := "Error: OpenRouter API key not set."

/-- The emission of `run` on a `requests` exception (covers connection,
authentication, rate-limit and generic API failures). -/
def errApi (e : String) : String := "API Error: " ++ e

/-- The emission of `run` when the response JSON lacks an expected key. -/
def errParse (e : String) : String := "API Response Parse Error: Missing key " ++ e

/-- The emission of `run`'s unexpected-exception catch-all. -/
def errUnexpected (e : String) : String := "An unexpected error occurred: " ++ e

theorem strStartsWith_append_left (q e p : String)
    (h : p.data.length ≤ q.data.length) :
    strStartsWith (q ++ e) p = strStartsWith q p := by
  have hiff : p.data.isPrefixOf (q.data ++ e.data) = true
      ↔ p.data.isPrefixOf q.data = true := by
    rw [List.isPrefixOf_iff_prefix, List.isPrefixOf_iff_prefix,
      List.prefix_iff_eq_take, List.prefix_iff_eq_take,
      List.take_append_eq_append_take]
    have h0 : p.data.length - q.data.length = 0 := by omega
    rw [h0]
    simp
  rw [strStartsWith, strStartsWith, String.data_append]
  cases hq : p.data.isPrefixOf q.data with
  | true => exact hiff.mpr hq
  | false =>
    cases hqe : p.data.isPrefixOf (q.data ++ e.data) with
    | true =>
      have hcontra : p.data.isPrefixOf q.data = true := hiff.mp hqe
      rw [hq] at hcontra
      exact Bool.noConfusion hcontra
    | false => rfl

theorem isErrorText_errApi (e : String) : isErrorText (errApi e) = true := by
  have hb : strStartsWith (errApi e) "API Error:" = true := by
    rw [errApi, strStartsWith_append_left _ _ _ (by decide)]
    decide
  simp [isErrorText, hb]

theorem isErrorText_errParse (e : String) : isErrorText (errParse e) = true := by
  have hb : strStartsWith (errParse e) "API Response Parse Error:" = true := by
    rw [errParse, strStartsWith_append_left _ _ _ (by decide)]
    decide
  simp [isErrorText, hb]

theorem isErrorText_errUnexpected (e : String) :
    isErrorText (errUnexpected e) = false := by
  rw [isErrorText, errUnexpected,
    strStartsWith_append_left _ _ "Error:" (by decide),
    strStartsWith_append_left _ _ "API Error:" (by decide),
    strStartsWith_append_left _ _ "API Response Parse Error:" (by decide)]
  decide

/-! ### Stripping lemmas -/

theorem head?_dropWhile_not (p : Char → Bool) :
    ∀ l : List Char, ∀ c : Char, (l.dropWhile p).head? = some c → p c = false := by
  intro l
  induction l with
  | nil =>
    intro c hc
    cases hc
  | cons a t ih =>
    intro c hc
    rw [List.dropWhile_cons] at hc
    split at hc
    · exact ih c hc
    · rename_i hpa
      simp only [List.head?_cons, Option.some.injEq] at hc
      rw [← hc]
      simpa using hpa

theorem head?_of_prefix_ne_nil {l₁ l₂ : List Char} (h : l₁ <+: l₂) (hne : l₁ ≠ []) :
    l₂.head? = l₁.head? := by
  obtain ⟨u, hu⟩ := h
  rw [← hu]
  cases l₁ with
  | nil => exact absurd rfl hne
  | cons a v => rfl

theorem strip_list_no_lead (p : Char → Bool) (d : List Char) (c : Char)
    (hc : (((d.dropWhile p).reverse.dropWhile p).reverse).head? = some c) :
    p c = false := by
  have hne : ((d.dropWhile p).reverse.dropWhile p).reverse ≠ [] := by
    intro h0
    rw [h0] at hc
    cases hc
  have hsuf : (d.dropWhile p).reverse.dropWhile p <:+ (d.dropWhile p).reverse :=
    List.dropWhile_suffix p
  have hsuf' : (((d.dropWhile p).reverse.dropWhile p).reverse).reverse
      <:+ (d.dropWhile p).reverse := by
    rw [List.reverse_reverse]
    exact hsuf
  have hpre : ((d.dropWhile p).reverse.dropWhile p).reverse <+: d.dropWhile p :=
    List.reverse_suffix.mp hsuf'
  have hhead : (d.dropWhile p).head? = some c := by
    rw [head?_of_prefix_ne_nil hpre hne]
    exact hc
  exact head?_dropWhile_not p d c hhead

theorem strip_list_no_trail (p : Char → Bool) (d : List Char) (c : Char)
    (hc : (((d.dropWhile p).reverse.dropWhile p).reverse).getLast? = some c) :
    p c = false := by
  rw [List.getLast?_reverse] at hc
  exact head?_dropWhile_not p (d.dropWhile p).reverse c hc

theorem pyStrip_no_edge_ws (t : String) :
    startsWithWS (pyStrip t) = false ∧ endsWithWS (pyStrip t) = false := by
  constructor
  · rw [startsWithWS]
    cases hh : (pyStrip t).data.head? with
    | none => rfl
    | some c => exact strip_list_no_lead pyIsSpace t.data c hh
  · rw [endsWithWS]
    cases hh : (pyStrip t).data.getLast? with
    | none => rfl
    | some c => exact strip_list_no_trail pyIsSpace t.data c hh

theorem start_api_request_history (s : ApplicationManager) :
    (start_api_request s).conversation_history = s.conversation_history := by
  cases hat : s.api_thread with
  | some w => exact (start_api_request_pending s (by rw [hat]; rfl)).2.1
  | none =>
    cases hk : falsy s.openrouter_api_key with
    | true => exact (start_api_request_no_key s hat hk).2.1
    | false => rw [start_api_request_dispatch s hat hk]

theorem send_message_eq (s : ApplicationManager) :
    send_message s = if pyStrip s.inputText = "" then s
      else { handle_input_entered s (pyStrip s.inputText) with
             inputText := "", inputVisible := false } := rfl

theorem step_preserves_worker {s s' : ApplicationManager} (hstep : Step s s')
    (w w' : OpenRouterApiThread) (hw : s.api_thread = some w)
    (hw' : s'.api_thread = some w') : w' = w := by
  cases hstep with
  | type_input t =>
    have h2 : s.api_thread = some w' := hw'
    rw [hw] at h2
    exact (Option.some.inj h2).symm
  | send =>
    have h3 : (send_message s).api_thread = some w' := hw'
    rw [send_message_eq] at h3
    split at h3
    · have h5 : s.api_thread = some w' := h3
      rw [hw] at h5
      exact (Option.some.inj h5).symm
    · have h4 : (start_api_request { s with conversation_history := appendTrimmed s.conversation_history (Message.mk "user" (pyStrip s.inputText)) }).api_thread = some w' := h3
      have hp1 : ({ s with conversation_history := appendTrimmed s.conversation_history (Message.mk "user" (pyStrip s.inputText)) } : ApplicationManager).api_thread.isSome = true := by
        show s.api_thread.isSome = true
        rw [hw]
        rfl
      obtain ⟨p1, _, _, _, _, _⟩ := start_api_request_pending _ hp1
      rw [p1] at h4
      have h5 : s.api_thread = some w' := h4
      rw [hw] at h5
      exact (Option.some.inj h5).symm
  | char_click =>
    have h3 : (handle_character_clicked s).api_thread = some w' := hw'
    rw [handle_character_clicked] at h3
    split at h3
    all_goals
      have h5 : s.api_thread = some w' := h3
      rw [hw] at h5
      exact (Option.some.inj h5).symm
  | complete r h =>
    have h3 : (complete_worker s r).api_thread = some w' := hw'
    rw [complete_worker, api_thread_finished_def] at h3
    have h4 : (none : Option OpenRouterApiThread) = some w' := h3
    exact Option.noConfusion h4
  | show_win =>
    have h4 : (show_windows s).api_thread = some w' := hw'
    rw [show_windows_def] at h4
    have h5 : s.api_thread = some w' := h4
    rw [hw] at h5
    exact (Option.some.inj h5).symm
  | hide_win =>
    have h5 : s.api_thread = some w' := hw'
    rw [hw] at h5
    exact (Option.some.inj h5).symm
  | warn h =>
    have h5 : s.api_thread = some w' := hw'
    rw [hw] at h5
    exact (Option.some.inj h5).symm

/-! ### Claim theorems -/

/-- C1: for every sequence of N messages appended to the conversation history
with bound B = 10, after all appends the history length equals min(N, B) and
the history contents equal the last B appended messages in append order. -/
theorem history_buffer_fifo_bound (msgs : List Message) :
    (msgs.foldl appendTrimmed []).length = min msgs.length MAX_HISTORY_MESSAGES ∧
    msgs.foldl appendTrimmed []
      = msgs.drop (msgs.length - MAX_HISTORY_MESSAGES) := by
  have h := foldl_appendTrimmed msgs [] (by simp)
  simp only [List.nil_append] at h
  refine ⟨?_, h⟩
  rw [h, List.length_drop]
  omega

/-- C2 counterexample: after a submission dispatches a worker, showing the
windows from the tray yields a reachable state whose app state is Idle while
the worker is still pending — refuting the claimed Thinking-iff-pending
invariant. -/
theorem thinking_iff_pending_cex :
    Reachable (some "k") (some "m") (show_windows demoPending) ∧
    (show_windows demoPending).app_state = AppState.idle ∧
    (show_windows demoPending).api_thread.isSome = true := by
  refine ⟨Reachable.step demoPending_reachable (Step.show_win _), ?_, ?_⟩
  · decide
  · decide

/-- C2 (amended): in every reachable state, Thinking implies a pending
worker (never Thinking with no pending worker); the converse direction
fails because `_show_windows` resets the state to Idle while a worker may
still be pending. -/
theorem thinking_only_while_pending (key model : Option String)
    (s : ApplicationManager) (h : Reachable key model s)
    (ht : s.app_state = AppState.thinking) :
    s.api_thread.isSome = true :=
  (reachable_inv h).2.1 ht

/-- Witness for the amended C2 theorem at a concrete reachable state. -/
theorem thinking_only_while_pending_witness :
    demoPending.api_thread.isSome = true :=
  thinking_only_while_pending (some "k") (some "m") demoPending
    demoPending_reachable (by decide)

/-- C3 counterexample: with the API key present but the model identifier
absent, submitting text starts a worker anyway (and shows the normal
pending notice), refuting the claim that a missing model blocks dispatch. -/
theorem config_validation_cex :
    (send_message { initManager (some "sk-test") none with
        inputText := "Hello" }).api_thread.isSome = true ∧
    (send_message { initManager (some "sk-test") none with
        inputText := "Hello" }).bubbleText = "Thinking..." := by
  refine ⟨?_, ?_⟩
  · decide
  · decide

/-- C3 (amended): the dispatcher validates only the API key (the endpoint
is a compile-time constant): a missing/empty key surfaces an API-key notice
and returns to Idle without starting a worker, while a present key always
dispatches a worker, even when the model identifier is absent. -/
theorem dispatch_validates_only_key :
    (∀ s : ApplicationManager, s.api_thread = none →
      falsy s.openrouter_api_key = true →
      (start_api_request s).api_thread = none ∧
      (start_api_request s).app_state = AppState.idle ∧
      (start_api_request s).bubbleVisible = true ∧
      strContains (start_api_request s).bubbleText "API key not set" = true) ∧
    (∀ s : ApplicationManager, s.api_thread = none →
      falsy s.openrouter_api_key = false →
      (start_api_request s).api_thread.isSome = true) := by
  constructor
  · intro s h hk
    obtain ⟨q1, _, q3, q4, q5⟩ := start_api_request_no_key s h hk
    exact ⟨q1, q3, q4, q5⟩
  · intro s h hk
    rw [start_api_request_dispatch s h hk]
    rfl

/-- Witness for the amended C3 theorem: both branches at concrete states. -/
theorem dispatch_validates_only_key_witness :
    ((start_api_request (initManager none none)).api_thread = none ∧
     (start_api_request (initManager none none)).app_state = AppState.idle ∧
     (start_api_request (initManager none none)).bubbleVisible = true ∧
     strContains (start_api_request (initManager none none)).bubbleText
       "API key not set" = true) ∧
    (start_api_request (initManager (some "k") none)).api_thread.isSome = true :=
  ⟨dispatch_validates_only_key.1 (initManager none none) rfl rfl,
   dispatch_validates_only_key.2 (initManager (some "k") none) rfl (by decide)⟩

/-- C4 counterexample: the unexpected-exception catch-all emission
("An unexpected error occurred: ...") does not match the error-prefix
classification, so `handle_api_result` appends it to the (previously empty)
history as an assistant message — refuting the claim that all recognized
error categories leave the history unchanged. -/
theorem unexpected_error_stored_cex :
    (initManager (some "k") (some "m")).conversation_history = [] ∧
    (handle_api_result (initManager (some "k") (some "m"))
        (errUnexpected "boom")).conversation_history
      = [Message.mk "assistant" (errUnexpected "boom")] := by
  refine ⟨rfl, ?_⟩
  decide

/-- C4 (amended): emissions for missing credential, request failures
(connection, authentication, rate limiting, generic API failure) and
response-parsing failures leave the conversation history unchanged; the
unexpected-exception catch-all emission is not matched by the prefix
classification and is appended as an assistant message, as is every other
non-matching emission. -/
theorem error_categories_vs_history (s : ApplicationManager)
    (e1 e2 e3 : String) :
    (handle_api_result s errMissingKey).conversation_history
      = s.conversation_history ∧
    (handle_api_result s (errApi e1)).conversation_history
      = s.conversation_history ∧
    (handle_api_result s (errParse e2)).conversation_history
      = s.conversation_history ∧
    (handle_api_result s (errUnexpected e3)).conversation_history
      = appendTrimmed s.conversation_history
          (Message.mk "assistant" (errUnexpected e3)) ∧
    (∀ r : String, isErrorText r = false →
      (handle_api_result s r).conversation_history
        = appendTrimmed s.conversation_history (Message.mk "assistant" r)) := by
  refine ⟨?_, ?_, ?_, ?_, ?_⟩
  · rw [handle_api_result_history]
    have h : isErrorText errMissingKey = true := by decide
    rw [h]
    rfl
  · rw [handle_api_result_history, isErrorText_errApi]
    rfl
  · rw [handle_api_result_history, isErrorText_errParse]
    rfl
  · rw [handle_api_result_history, isErrorText_errUnexpected]
    rfl
  · intro r hr
    rw [handle_api_result_history, hr]
    rfl

/-- Witness for the amended C4 theorem: a plain reply is appended. -/
theorem error_categories_vs_history_witness :
    (handle_api_result (initManager (some "k") (some "m"))
        "Hi there!").conversation_history
      = appendTrimmed (initManager (some "k") (some "m")).conversation_history
          (Message.mk "assistant" "Hi there!") :=
  (error_categories_vs_history (initManager (some "k") (some "m"))
      "" "" "").2.2.2.2 "Hi there!" (by decide)

/-- C5: a submission made while a request is pending never starts a second
worker (the pending worker reference is unchanged), stores only the user
message (never the notice), sets the visible state to Thinking, and leaves
the bubble showing one of the two pending notices. -/
theorem pending_submission_coalesced (key model : Option String)
    (s : ApplicationManager) (w : OpenRouterApiThread) (t : String)
    (hr : Reachable key model s) (hp : s.api_thread = some w) :
    (handle_input_entered s t).api_thread = some w ∧
    (handle_input_entered s t).conversation_history
      = appendTrimmed s.conversation_history (Message.mk "user" t) ∧
    (handle_input_entered s t).app_state = AppState.thinking ∧
    (handle_input_entered s t).bubbleVisible = true ∧
    ((handle_input_entered s t).bubbleText = "Thinking..." ∨
      (handle_input_entered s t).bubbleText = "Already thinking...") := by
  obtain ⟨_, _, _, h4, _⟩ := reachable_inv hr
  have hp1 : ({ s with conversation_history := appendTrimmed s.conversation_history (Message.mk "user" t) } : ApplicationManager).api_thread.isSome = true := by
    show s.api_thread.isSome = true
    rw [hp]
    rfl
  obtain ⟨p1, p2, p3, p4, p5, p6⟩ := start_api_request_pending _ hp1
  rw [handle_input_entered]
  refine ⟨?_, ?_, p4, p5, ?_⟩
  · rw [p1]
    show s.api_thread = some w
    exact hp
  · rw [p2]
  · rcases p6 with hq | ⟨hq, _⟩
    · right
      exact hq
    · rw [hq]
      show s.bubbleText = "Thinking..." ∨ s.bubbleText = "Already thinking..."
      exact h4 (by rw [hp]; rfl)

/-- Witness for the C5 theorem at a concrete reachable pending state. -/
theorem pending_submission_coalesced_witness :
    (handle_input_entered demoPending "Again").api_thread = some demoThread ∧
    (handle_input_entered demoPending "Again").conversation_history
      = appendTrimmed demoPending.conversation_history (Message.mk "user" "Again") ∧
    (handle_input_entered demoPending "Again").app_state = AppState.thinking ∧
    (handle_input_entered demoPending "Again").bubbleVisible = true ∧
    ((handle_input_entered demoPending "Again").bubbleText = "Thinking..." ∨
      (handle_input_entered demoPending "Again").bubbleText = "Already thinking...") :=
  pending_submission_coalesced (some "k") (some "m") demoPending demoThread
    "Again" demoPending_reachable demoPending_api_thread

/-- C6: on worker completion the result text is delivered to the bubble
first (while the pending marker and state are still untouched), and only
afterwards is the pending-request marker cleared and the state set back to
Idle; the delivered text is still shown after the flip. -/
theorem result_delivered_before_idle (s : ApplicationManager) (r : String) :
    complete_worker s r = api_thread_finished (handle_api_result s r) ∧
    (handle_api_result s r).bubbleText = r ∧
    (handle_api_result s r).bubbleVisible = true ∧
    (handle_api_result s r).api_thread = s.api_thread ∧
    (handle_api_result s r).app_state = s.app_state ∧
    (complete_worker s r).api_thread = none ∧
    (complete_worker s r).app_state = AppState.idle ∧
    (complete_worker s r).bubbleText = r := by
  obtain ⟨f1, f2, _, f4, f5⟩ := handle_api_result_frame s r
  refine ⟨rfl, f5, f4, f1, f2, ?_, ?_, ?_⟩
  · simp [complete_worker, api_thread_finished_def]
  · simp [complete_worker, api_thread_finished_def]
  · rw [complete_worker, api_thread_finished_def]
    show (handle_api_result s r).bubbleText = r
    exact f5

/-- C7: every dispatched request carries exactly the system prompt followed
by the conversation history snapshotted at dispatch time, and no step of
the system ever changes the message list of a worker that stays in
flight. -/
theorem dispatch_snapshot_and_frame :
    (∀ s : ApplicationManager, s.api_thread = none →
      falsy s.openrouter_api_key = false →
      (start_api_request s).api_thread
        = some (OpenRouterApiThread.mk (Message.mk "system" SYSTEM_PROMPT :: s.conversation_history) s.openrouter_api_key s.openrouter_model)) ∧
    (∀ s s' : ApplicationManager, Step s s' →
      ∀ w w' : OpenRouterApiThread,
        s.api_thread = some w → s'.api_thread = some w' → w' = w) := by
  constructor
  · intro s h hk
    rw [start_api_request_dispatch s h hk, dispatched_thread]
  · intro s s' hstep w w' hw hw'
    exact step_preserves_worker hstep w w' hw hw'

/-- Witness for the C7 theorem: a concrete dispatch and a concrete step
across which the in-flight list is unchanged. -/
theorem dispatch_snapshot_and_frame_witness :
    (start_api_request demoTyped).api_thread
      = some (OpenRouterApiThread.mk (Message.mk "system" SYSTEM_PROMPT :: demoTyped.conversation_history) demoTyped.openrouter_api_key demoTyped.openrouter_model) ∧
    demoThread = demoThread :=
  ⟨dispatch_snapshot_and_frame.1 demoTyped rfl (by decide),
   dispatch_snapshot_and_frame.2 demoPending (hide_windows demoPending)
     (Step.hide_win _) demoThread demoThread
     demoPending_api_thread demoPending_api_thread⟩

/-- C8: in every reachable state every stored history message has role
"user" or "assistant" (so the system prompt is never stored), and any
in-flight worker's message list starts with the injected system prompt. -/
theorem history_roles_and_system_prompt (key model : Option String)
    (s : ApplicationManager) (h : Reachable key model s) :
    (s.conversation_history.all (fun m => m.role == "user" || m.role == "assistant")) = true ∧
    (s.api_thread.all (fun w => w.messages.head? == some (Message.mk "system" SYSTEM_PROMPT))) = true := by
  obtain ⟨h1, _, _, _, h5⟩ := reachable_inv h
  constructor
  · rw [List.all_eq_true]
    intro m hm
    rcases h1 m hm with hu | ha
    · rw [hu]
      rfl
    · rw [ha]
      rfl
  · cases hat : s.api_thread with
    | none => rfl
    | some w =>
      have hhead := h5 w hat
      show (w.messages.head? == some (Message.mk "system" SYSTEM_PROMPT)) = true
      rw [hhead]
      simp

/-- Witness for the C8 theorem at a concrete reachable pending state. -/
theorem history_roles_and_system_prompt_witness :
    (demoPending.conversation_history.all (fun m => m.role == "user" || m.role == "assistant")) = true ∧
    (demoPending.api_thread.all (fun w => w.messages.head? == some (Message.mk "system" SYSTEM_PROMPT))) = true :=
  history_roles_and_system_prompt (some "k") (some "m") demoPending
    demoPending_reachable

/-- C9: a submission through the input overlay is stripped of leading and
trailing whitespace before being emitted and stored (the stored user
message has no whitespace at either edge), and a submission whose strip is
empty is ignored entirely: the state — including the input field and the
overlay visibility — is unchanged. -/
theorem input_submission_strips (s : ApplicationManager) (t : String) :
    (pyStrip t = "" →
      send_message { s with inputText := t } = { s with inputText := t }) ∧
    (pyStrip t ≠ "" →
      (send_message { s with inputText := t }).inputText = "" ∧
      (send_message { s with inputText := t }).inputVisible = false ∧
      (send_message { s with inputText := t }).conversation_history
        = appendTrimmed s.conversation_history (Message.mk "user" (pyStrip t))) ∧
    startsWithWS (pyStrip t) = false ∧
    endsWithWS (pyStrip t) = false := by
  obtain ⟨hws1, hws2⟩ := pyStrip_no_edge_ws t
  refine ⟨?_, ?_, hws1, hws2⟩
  · intro he
    rw [send_message_eq]
    simp [he]
  · intro he
    have hcond : ¬(pyStrip ({ s with inputText := t } : ApplicationManager).inputText = "") := by
      show ¬(pyStrip t = "")
      exact he
    rw [send_message_eq, if_neg hcond]
    refine ⟨rfl, rfl, ?_⟩
    simp [handle_input_entered, start_api_request_history]

/-- Witness for the C9 theorem: an ASCII-whitespace-only submission and a
non-breaking-space-only submission are both no-ops, and a padded submission
is stored stripped. -/
theorem input_submission_strips_witness :
    send_message { initManager none none with inputText := "   " } = { initManager none none with inputText := "   " } ∧
    send_message { initManager none none with inputText := "\u00a0" } = { initManager none none with inputText := "\u00a0" } ∧
    (send_message { initManager (some "k") (some "m") with inputText := "  Hi  " }).conversation_history = appendTrimmed (initManager (some "k") (some "m")).conversation_history (Message.mk "user" (pyStrip "  Hi  ")) ∧
    startsWithWS (pyStrip "  Hi  ") = false :=
  ⟨(input_submission_strips (initManager none none) "   ").1 (by decide),
   (input_submission_strips (initManager none none) "\u00a0").1 (by decide),
   ((input_submission_strips (initManager (some "k") (some "m")) "  Hi  ").2.1 (by decide)).2.2,
   (input_submission_strips (initManager (some "k") (some "m")) "  Hi  ").2.2.1⟩

/-- C10: error classification is a prefix test on the result string alone:
any result starting with "Error:", "API Error:" or
"API Response Parse Error:" is treated as an error — shown in the bubble
but never appended to the conversation history — even if it is a genuine
model reply that happens to begin with such a prefix. -/
theorem error_prefix_never_stored (s : ApplicationManager) (r : String)
    (h : strStartsWith r "Error:" = true ∨ strStartsWith r "API Error:" = true ∨
      strStartsWith r "API Response Parse Error:" = true) :
    (handle_api_result s r).conversation_history = s.conversation_history ∧
    (handle_api_result s r).bubbleText = r ∧
    (handle_api_result s r).bubbleVisible = true := by
  have he : isErrorText r = true := by
    rw [isErrorText]
    rcases h with h | h | h <;> rw [h] <;> simp
  obtain ⟨_, _, _, f4, f5⟩ := handle_api_result_frame s r
  refine ⟨?_, f5, f4⟩
  rw [handle_api_result_history]
  simp [he]

/-- Witness for the C10 theorem: a reply-looking error-prefixed string is
shown but not stored. -/
theorem error_prefix_never_stored_witness :
    (handle_api_result demoPending "Error: a perfectly fine reply").conversation_history = demoPending.conversation_history ∧
    (handle_api_result demoPending "Error: a perfectly fine reply").bubbleText = "Error: a perfectly fine reply" ∧
    (handle_api_result demoPending "Error: a perfectly fine reply").bubbleVisible = true :=
  error_prefix_never_stored demoPending "Error: a perfectly fine reply"
    (Or.inl (by decide))

end Clippy
